import Mathlib

/-!
Verification of the crossplane configuration analyzer against its
natural-language specification.

The repository ships only the test suite for the analyzer and error modules;
the modules themselves (`crossplane/analyzer.py`, `crossplane/errors.py`) are
reconstructed here from the specification (spec.md §3, §4.3, §4.4, §4.6, §8)
and pinned by the repository's own tests (`tests/test_analyze.py`,
`tests/test_errors.py`).  Every definition below carries a doc comment naming
what it models.
-/

namespace Crossplane

/-! ## Bitmask constants

Modelled from the spec: §4.3 DirectiveSpec bitmask encoding — one bit per
argument-count rule and one bit per allowed context, as used by the directive
knowledge base (the names are re-exported by `tests/test_analyze.py`:
`NGX_CONF_NOARGS`, `NGX_CONF_TAKE1`, `NGX_CONF_1MORE`, `NGX_CONF_BLOCK`). -/

def NGX_CONF_NOARGS : Nat := 0x00000001
def NGX_CONF_TAKE1 : Nat := 0x00000002
def NGX_CONF_TAKE2 : Nat := 0x00000004
def NGX_CONF_TAKE3 : Nat := 0x00000008
def NGX_CONF_TAKE4 : Nat := 0x00000010
def NGX_CONF_TAKE5 : Nat := 0x00000020
def NGX_CONF_TAKE6 : Nat := 0x00000040
def NGX_CONF_TAKE7 : Nat := 0x00000080
def NGX_CONF_BLOCK : Nat := 0x00000100
def NGX_CONF_FLAG : Nat := 0x00000200
def NGX_CONF_ANY : Nat := 0x00000400
def NGX_CONF_1MORE : Nat := 0x00000800
def NGX_CONF_2MORE : Nat := 0x00001000

def NGX_DIRECT_CONF : Nat := 0x00010000
def NGX_MAIN_CONF : Nat := 0x00040000
def NGX_EVENT_CONF : Nat := 0x00080000
def NGX_MAIL_MAIN_CONF : Nat := 0x00100000
def NGX_MAIL_SRV_CONF : Nat := 0x00200000
def NGX_STREAM_MAIN_CONF : Nat := 0x00400000
def NGX_STREAM_SRV_CONF : Nat := 0x00800000
def NGX_STREAM_UPS_CONF : Nat := 0x01000000
def NGX_HTTP_MAIN_CONF : Nat := 0x02000000
def NGX_HTTP_SRV_CONF : Nat := 0x04000000
def NGX_HTTP_LOC_CONF : Nat := 0x08000000
def NGX_HTTP_UPS_CONF : Nat := 0x10000000
def NGX_HTTP_SIF_CONF : Nat := 0x20000000
def NGX_HTTP_LIF_CONF : Nat := 0x40000000
def NGX_HTTP_LMT_CONF : Nat := 0x80000000

/-! ## Data model -/

/-- Modelled from the spec: §3 Statement — the parse-tree node with fields
`directive`, `args`, `line` (the `block`/`comment` fields play no role in the
analyzer and are omitted here, matching the dict literals the tests pass). -/
structure Stmt where
  directive : String
  args : List String
  line : Nat
deriving DecidableEq

/-- Modelled from the spec: §4.6 error taxonomy — the kind of an exception in
the hierarchy (base, SyntaxError, abstract DirectiveError, ArgumentsError,
ContextError, UnknownDirectiveError). -/
inductive ExcKind where
  | baseExc
  | synErr
  | dirErr
  | argsErr
  | ctxErr
  | unknownErr
deriving DecidableEq

/-- Modelled from the spec: §4.6 — a base error carries
`(strerror, filename, lineno)`; all specializations carry the same fields,
distinguished only by their class (here the `kind` tag).  `lineno` is optional
because the constructor accepts `None`. -/
structure NgxException where
  kind : ExcKind
  strerror : String
  filename : String
  lineno : Option Nat
deriving DecidableEq

/-- Shorthand constructor for analyzer-raised exceptions, which always carry a
concrete line number. -/
def mkExc (k : ExcKind) (strerror fname : String) (line : Nat) : NgxException :=
  { kind := k, strerror := strerror, filename := fname, lineno := some line }

/-! ## Context registries -/

/-- Modelled from the spec: §4.3 `CONTEXTS` — the registry of every context
tuple the grammar recognizes, mapped to its context bit (the tests assert
membership of `()`, `("events",)`, `("http",)`, `("http","server")`,
`("http","location")`, `("http","upstream")`, `("http","server","if")`, and
`test_state_directive` requires that every registry context other than the two
upstream contexts rejects `state`). -/
def CONTEXTS : List (List String × Nat) :=
  [ ([], NGX_MAIN_CONF),
    (["events"], NGX_EVENT_CONF),
    (["mail"], NGX_MAIL_MAIN_CONF),
    (["mail", "server"], NGX_MAIL_SRV_CONF),
    (["stream"], NGX_STREAM_MAIN_CONF),
    (["stream", "server"], NGX_STREAM_SRV_CONF),
    (["stream", "upstream"], NGX_STREAM_UPS_CONF),
    (["http"], NGX_HTTP_MAIN_CONF),
    (["http", "server"], NGX_HTTP_SRV_CONF),
    (["http", "location"], NGX_HTTP_LOC_CONF),
    (["http", "upstream"], NGX_HTTP_UPS_CONF),
    (["http", "server", "if"], NGX_HTTP_SIF_CONF),
    (["http", "location", "if"], NGX_HTTP_LIF_CONF),
    (["http", "location", "limit_except"], NGX_HTTP_LMT_CONF) ]

/-- Modelled from the spec: §4.3 — the fixed subset of freeform contexts:
`("http","map")`, `("http","types")`, `("http","geo")`,
`("http","charset_map")` "and equivalents under `stream`", whose contents are
data entries exempt from all directive validation. -/
def FREEFORM_CONTEXTS : List (List String) :=
  [ ["http", "map"],
    ["http", "types"],
    ["http", "geo"],
    ["http", "charset_map"],
    ["stream", "map"],
    ["stream", "geo"] ]

/-! ## Directive knowledge base -/

/-- Modelled from the spec: §4.3 `DIRECTIVES` — the static table mapping a
directive name to the list of bitmask entries encoding its legal
(argument-count rule, context) combinations.  Restricted here to the
directives the specification and the test suite exercise; the analyzer
treats every name absent from the table uniformly (§4.4 step 2), so the
remaining entries of the full table are immaterial to the proofs. -/
def DIRECTIVES : List (String × List Nat) :=
  [ ("accept_mutex", [NGX_EVENT_CONF ||| NGX_CONF_FLAG]),
    ("break",
      [NGX_HTTP_SRV_CONF ||| NGX_HTTP_SIF_CONF ||| NGX_HTTP_LOC_CONF |||
        NGX_HTTP_LIF_CONF ||| NGX_CONF_NOARGS]),
    ("events", [NGX_MAIN_CONF ||| NGX_CONF_BLOCK ||| NGX_CONF_NOARGS]),
    ("http", [NGX_MAIN_CONF ||| NGX_CONF_BLOCK ||| NGX_CONF_NOARGS]),
    ("index",
      [NGX_HTTP_MAIN_CONF ||| NGX_HTTP_SRV_CONF ||| NGX_HTTP_LOC_CONF |||
        NGX_CONF_1MORE]),
    ("listen",
      [NGX_HTTP_SRV_CONF ||| NGX_CONF_1MORE,
       NGX_MAIL_SRV_CONF ||| NGX_CONF_1MORE,
       NGX_STREAM_SRV_CONF ||| NGX_CONF_1MORE]),
    ("location",
      [NGX_HTTP_SRV_CONF ||| NGX_HTTP_LOC_CONF ||| NGX_CONF_BLOCK |||
        NGX_CONF_TAKE1 ||| NGX_CONF_TAKE2]),
    ("server",
      [NGX_HTTP_MAIN_CONF ||| NGX_CONF_BLOCK ||| NGX_CONF_NOARGS,
       NGX_HTTP_UPS_CONF ||| NGX_CONF_1MORE,
       NGX_MAIL_MAIN_CONF ||| NGX_CONF_BLOCK ||| NGX_CONF_NOARGS,
       NGX_STREAM_MAIN_CONF ||| NGX_CONF_BLOCK ||| NGX_CONF_NOARGS,
       NGX_STREAM_UPS_CONF ||| NGX_CONF_1MORE]),
    ("server_name", [NGX_HTTP_SRV_CONF ||| NGX_CONF_TAKE1]),
    ("state",
      [NGX_HTTP_UPS_CONF ||| NGX_CONF_TAKE1,
       NGX_STREAM_UPS_CONF ||| NGX_CONF_TAKE1]) ]

/-! ## Block-context derivation -/

/-- Modelled from the spec: §4.2 block-context derivation `enter_block_ctx` —
appends the directive to the context, except that entering a `location` block
anywhere under `http` collapses to the fixed two-element context
`("http","location")` (arbitrarily nested location blocks all share the same
legality rules). -/
def enter_block_ctx (stmt : Stmt) (ctx : List String) : List String :=
  if ctx ≠ [] && ctx.headD "" == "http" && stmt.directive == "location" then
    ["http", "location"]
  else
    ctx ++ [stmt.directive]

/-! ## The analyzer -/

/-- Modelled from the spec: §4.4 — lower-casing of a single character, as
Python's `str.lower` acts on the ASCII letters the grammar uses. -/
def lowerChar (c : Char) : Char :=
  if 'A' ≤ c && c ≤ 'Z' then Char.ofNat (c.toNat + 32) else c

/-- Modelled from the spec: §4.4 — lower-casing of a string, character by
character. -/
def pyLower (s : String) : String :=
  String.mk (s.data.map lowerChar)

/-- Modelled from the spec: §4.4 — a flag argument must case-insensitively
equal `on` or `off`. -/
def validFlag (s : String) : Bool :=
  pyLower s == "on" || pyLower s == "off"

/-- Modelled from the spec: §4.4 step 4 — whether one bitmask entry's
argument rule matches the statement's argument list: the `NOARGS`..`TAKE7`
bit indexed by the argument count (when at most 7), a valid flag argument,
`ANY`, `1MORE` with at least one argument, or `2MORE` with at least two. -/
def argOk (mask : Nat) (args : List String) : Bool :=
  let n := args.length
  (decide (n ≤ 7) && ((mask >>> n) &&& 1 == 1)) ||
  (mask &&& NGX_CONF_FLAG != 0 && n == 1 && validFlag (args.headD "")) ||
  (mask &&& NGX_CONF_ANY != 0) ||
  (mask &&& NGX_CONF_1MORE != 0 && decide (1 ≤ n)) ||
  (mask &&& NGX_CONF_2MORE != 0 && decide (2 ≤ n))

/-- Modelled from the spec: §4.4 steps 4–5 — the checks one bitmask entry
must pass: block shape against the terminator (`BLOCK` entries need `\x7b`,
non-`BLOCK` entries need `;`) and then the argument rule.  `none` means the
entry accepts the statement; `some why` carries the rejection reason
(block-shape messages `has no opening "\x7b"` / `is not terminated by ";"`,
flag message `it must be "on" or "off"`, otherwise
`invalid number of arguments`). -/
def maskFail (mask : Nat) (term : String) (args : List String) (d : String) :
    Option String :=
  if mask &&& NGX_CONF_BLOCK != 0 && term != "\x7b" then
    some ("directive \"" ++ d ++ "\" has no opening \"\x7b\"")
  else if mask &&& NGX_CONF_BLOCK == 0 && term != ";" then
    some ("directive \"" ++ d ++ "\" is not terminated by \";\"")
  else if argOk mask args then
    none
  else if mask &&& NGX_CONF_FLAG != 0 && args.length == 1 &&
      !validFlag (args.headD "") then
    some ("invalid value \"" ++ args.headD "" ++ "\" in \"" ++ d ++
      "\" directive, it must be \"on\" or \"off\"")
  else
    some ("invalid number of arguments in \"" ++ d ++ "\" directive")

/-- Modelled from the spec: §4.4 steps 4–5 — the per-mask acceptance loop:
the first entry passing `maskFail` accepts the statement, and when none does
the last recorded reason is raised as an ArgumentsError. -/
def runMasks (d fname : String) (line : Nat) (term : String) (args : List String) :
    List Nat → Option String → Except NgxException Unit
  | [], reason =>
      Except.error (mkExc .argsErr (reason.getD "") fname line)
  | mask :: rest, _reason =>
      match maskFail mask term args d with
      | none => Except.ok ()
      | some why => runMasks d fname line term args rest (some why)

/-- Modelled from the spec: §4.4 `analyze` — the stateless validation
function.  Decision sequence: (1) a freeform context accepts unconditionally;
(2) a directive absent from `DIRECTIVES` raises UnknownDirectiveError in
strict mode and is accepted silently otherwise; an unregistered context is
likewise accepted without further checks; (3) with `check_ctx`, the
directive's entries are filtered to those matching the context bit, and an
empty result raises ContextError `"X" directive is not allowed here`;
(4)–(5) with `check_args`, the surviving entries are run through the
block-shape and argument-rule loop `runMasks` (in reverse, so that the first
entry's reason wins when all fail). -/
def analyze (fname : String) (stmt : Stmt) (term : String) (ctx : List String)
    (strict : Bool := false) (check_ctx : Bool := true)
    (check_args : Bool := true) : Except NgxException Unit :=
  if FREEFORM_CONTEXTS.contains ctx then
    Except.ok ()
  else if strict && (DIRECTIVES.lookup stmt.directive).isNone then
    Except.error (mkExc .unknownErr
      ("unknown directive \"" ++ stmt.directive ++ "\"") fname stmt.line)
  else
    match CONTEXTS.lookup ctx, DIRECTIVES.lookup stmt.directive with
    | some ctxMask, some masks =>
        let valid := if check_ctx then masks.filter (fun m => m &&& ctxMask != 0)
          else masks
        if check_ctx && valid.isEmpty then
          Except.error (mkExc .ctxErr
            ("\"" ++ stmt.directive ++ "\" directive is not allowed here")
            fname stmt.line)
        else if check_args then
          runMasks stmt.directive fname stmt.line term stmt.args
            valid.reverse none
        else
          Except.ok ()
    | _, _ => Except.ok ()

/-! ## Error rendering -/

/-- Modelled from the spec: §4.6 / §9 — the failure mode of Python's
`%`-formatting, raised when the argument tuple does not fit the format
string's placeholders. -/
inductive PyFmtError where
  | typeError
deriving DecidableEq

/-- Modelled from the spec: §4.6 / §9 — Python `%`-formatting restricted to
`%s` placeholders: each `%s` consumes one argument; leftover arguments or a
placeholder with no argument raise a TypeError. -/
def pyFormatS : List Char → List String → Except PyFmtError String
  | [], [] => Except.ok ""
  | [], _ :: _ => Except.error PyFmtError.typeError
  | '%' :: 's' :: rest, args =>
      match args with
      | [] => Except.error PyFmtError.typeError
      | a :: as =>
          match pyFormatS rest as with
          | Except.ok t => Except.ok (a ++ t)
          | Except.error e => Except.error e
  | c :: rest, args =>
      match pyFormatS rest args with
      | Except.ok t => Except.ok (String.singleton c ++ t)
      | Except.error e => Except.error e

/-- Modelled from the spec: §4.6 — how a lineno value appears under `%s`
(Python renders `None` as the text `None` and an int as its digits). -/
def linenoStr : Option Nat → String
  | some n => toString n
  | none => "None"

/-- Modelled from the spec: §4.6 — the base error renders as
`"{strerror} in {filename}:{lineno}"`; the constructor stores the args
3-tuple `(strerror, filename, lineno)`, and rendering selects a
three-placeholder format when `lineno` is present but a two-placeholder
format when it is `None`, while still supplying the whole 3-tuple (§9 notes
the resulting arity mismatch). -/
def NgxException.render (e : NgxException) : Except PyFmtError String :=
  let args := [e.strerror, e.filename, linenoStr e.lineno]
  match e.lineno with
  | some _ => pyFormatS "%s in %s:%s".data args
  | none => pyFormatS "%s in %s".data args

/-! ## Helper lemmas -/

/-- The mask loop can only raise ArgumentsError: every error it returns has
kind `argsErr`. -/
theorem runMasks_error_kind (d fname : String) (line : Nat) (term : String)
    (args : List String) (ms : List Nat) :
    ∀ (r : Option String) (e : NgxException),
      runMasks d fname line term args ms r = Except.error e →
        e.kind = ExcKind.argsErr := by
  induction ms with
  | nil =>
      intro r e h
      simp only [runMasks] at h
      cases h
      rfl
  | cons m rest ih =>
      intro r e h
      simp only [runMasks] at h
      cases hf : maskFail m term args d with
      | none => rw [hf] at h; cases h
      | some why => rw [hf] at h; exact ih _ _ h

/-- For a non-block mask checked against terminator `;`, passing `maskFail`
is exactly passing the argument rule. -/
theorem maskFail_none_iff (m : Nat) (args : List String) (d : String)
    (hm : m &&& NGX_CONF_BLOCK = 0) :
    (maskFail m ";" args d = none) ↔ argOk m args = true := by
  simp only [maskFail, hm]
  split_ifs <;> simp_all

/-- Over non-block masks with terminator `;`, the mask loop accepts exactly
when some mask's argument rule matches, whatever reason is pending. -/
theorem runMasks_noBlock_ok_iff (d fname : String) (line : Nat)
    (args : List String) (ms : List Nat) :
    ∀ r, (∀ m ∈ ms, m &&& NGX_CONF_BLOCK = 0) →
      (runMasks d fname line ";" args ms r = Except.ok () ↔
        ∃ m ∈ ms, argOk m args = true) := by
  induction ms with
  | nil =>
      intro r _
      simp [runMasks]
  | cons m rest ih =>
      intro r hb
      have hm : m &&& NGX_CONF_BLOCK = 0 := hb m (by simp)
      have hrest : ∀ m' ∈ rest, m' &&& NGX_CONF_BLOCK = 0 :=
        fun m' h' => hb m' (by simp [h'])
      simp only [runMasks]
      cases hf : maskFail m ";" args d with
      | none =>
          have hA : argOk m args = true := (maskFail_none_iff m args d hm).mp hf
          simp [hA]
      | some why =>
          have hA : ¬ argOk m args = true := by
            intro hA
            rw [(maskFail_none_iff m args d hm).mpr hA] at hf
            cases hf
          rw [ih _ hrest]
          simp [hA]

/-- Python `%s`-formatting of the three-placeholder template at three
arguments substitutes them in order. -/
theorem pyFormatS_three (a b c : String) :
    pyFormatS "%s in %s:%s".data [a, b, c] =
      Except.ok (a ++ " in " ++ b ++ ":" ++ c) := by
  show pyFormatS ['%', 's', ' ', 'i', 'n', ' ', '%', 's', ':', '%', 's'] [a, b, c] = _
  simp [pyFormatS]
  apply String.ext
  simp [String.data_append, String.singleton]

/-- Python `%s`-formatting of the two-placeholder template at three
arguments fails: not all arguments are converted. -/
theorem pyFormatS_two_of_three (a b c : String) :
    pyFormatS "%s in %s".data [a, b, c] = Except.error PyFmtError.typeError := by
  show pyFormatS ['%', 's', ' ', 'i', 'n', ' ', '%', 's'] [a, b, c] = _
  simp [pyFormatS]

/-- For a known directive in a registered, non-freeform context whose
context filter is non-empty, `analyze` with `check_ctx` reduces to the mask
loop over the filtered entries (or accepts outright when `check_args` is
off). -/
theorem analyze_reduce (fname term : String) (stmt : Stmt) (ctx : List String)
    (strict check_args : Bool) (masks : List Nat) (cmask : Nat)
    (hd : DIRECTIVES.lookup stmt.directive = some masks)
    (hc : CONTEXTS.lookup ctx = some cmask)
    (hfb : FREEFORM_CONTEXTS.contains ctx = false)
    (hie : (masks.filter (fun m => m &&& cmask != 0)).isEmpty = false) :
    analyze fname stmt term ctx strict true check_args =
      if check_args then
        runMasks stmt.directive fname stmt.line term stmt.args
          (masks.filter (fun m => m &&& cmask != 0)).reverse none
      else Except.ok () := by
  simp only [analyze, hfb, hd, hc, Option.isNone_some, Bool.and_false,
    Bool.true_and, Bool.false_eq_true, if_false, if_true, hie]

/-- When no entry of a known directive matches a registered, non-freeform
context, `analyze` with `check_ctx` raises exactly the ContextError
`"X" directive is not allowed here`. -/
theorem analyze_ctx_mismatch (fname term : String) (stmt : Stmt)
    (ctx : List String) (strict check_args : Bool) (masks : List Nat)
    (cmask : Nat)
    (hd : DIRECTIVES.lookup stmt.directive = some masks)
    (hc : CONTEXTS.lookup ctx = some cmask)
    (hf : ctx ∉ FREEFORM_CONTEXTS)
    (hall : ∀ m ∈ masks, m &&& cmask = 0) :
    analyze fname stmt term ctx strict true check_args =
      Except.error (mkExc .ctxErr
        ("\"" ++ stmt.directive ++ "\" directive is not allowed here")
        fname stmt.line) := by
  have hfilter : masks.filter (fun m => m &&& cmask != 0) = [] := by
    rw [List.filter_eq_nil_iff]
    intro m hm
    simp [hall m hm]
  simp [analyze, hf, hd, hc, hfilter]

/-- For a known directive in a registered, non-freeform context with at
least one entry matching the context, every error `analyze` raises with
`check_ctx` is an ArgumentsError. -/
theorem analyze_known_error_args (fname term : String) (stmt : Stmt)
    (ctx : List String) (strict check_args : Bool) (masks : List Nat)
    (cmask : Nat)
    (hd : DIRECTIVES.lookup stmt.directive = some masks)
    (hc : CONTEXTS.lookup ctx = some cmask)
    (hfb : FREEFORM_CONTEXTS.contains ctx = false)
    (hie : (masks.filter (fun m => m &&& cmask != 0)).isEmpty = false) :
    ∀ e, analyze fname stmt term ctx strict true check_args = Except.error e →
      e.kind = ExcKind.argsErr := by
  intro e he
  rw [analyze_reduce fname term stmt ctx strict check_args masks cmask
    hd hc hfb hie] at he
  cases check_args with
  | false => simp at he
  | true =>
      simp only [if_true] at he
      exact runMasks_error_kind stmt.directive fname stmt.line term
        stmt.args _ _ _ he

/-- For a known directive in a registered, non-freeform context whose
matching entries are all non-block, a `;`-terminated statement passes the
full analysis exactly when some matching entry's argument rule fits. -/
theorem analyze_noBlock_ok_iff (fname : String) (stmt : Stmt)
    (ctx : List String) (strict : Bool) (masks : List Nat) (cmask : Nat)
    (hd : DIRECTIVES.lookup stmt.directive = some masks)
    (hc : CONTEXTS.lookup ctx = some cmask)
    (hfb : FREEFORM_CONTEXTS.contains ctx = false)
    (hie : (masks.filter (fun m => m &&& cmask != 0)).isEmpty = false)
    (hnb : ∀ m ∈ masks.filter (fun m => m &&& cmask != 0),
      m &&& NGX_CONF_BLOCK = 0) :
    (analyze fname stmt ";" ctx strict true true = Except.ok () ↔
      ∃ m ∈ masks.filter (fun m => m &&& cmask != 0),
        argOk m stmt.args = true) := by
  rw [analyze_reduce fname ";" stmt ctx strict true masks cmask hd hc hfb hie]
  simp only [if_true]
  rw [runMasks_noBlock_ok_iff stmt.directive fname stmt.line stmt.args _ none
    (fun m hm => hnb m (List.mem_reverse.mp hm))]
  constructor
  · rintro ⟨m, hm, hA⟩
    exact ⟨m, List.mem_reverse.mp hm, hA⟩
  · rintro ⟨m, hm, hA⟩
    exact ⟨m, List.mem_reverse.mpr hm, hA⟩

/-- The argument rule of `accept_mutex`'s single bitmask entry matches a
one-element argument list exactly when the argument is a valid flag. -/
theorem argOk_accept_mutex (a : String) :
    argOk (NGX_EVENT_CONF ||| NGX_CONF_FLAG) [a] = validFlag a := by
  have d1 : (((NGX_EVENT_CONF ||| NGX_CONF_FLAG) >>> 1) &&& 1 == 1) = false := by
    decide
  have d3 : ((NGX_EVENT_CONF ||| NGX_CONF_FLAG) &&& NGX_CONF_ANY != 0) = false := by
    decide
  have d4 : ((NGX_EVENT_CONF ||| NGX_CONF_FLAG) &&& NGX_CONF_1MORE != 0) = false := by
    decide
  have d5 : ((NGX_EVENT_CONF ||| NGX_CONF_FLAG) &&& NGX_CONF_2MORE != 0) = false := by
    decide
  have d6 : ((NGX_EVENT_CONF ||| NGX_CONF_FLAG) &&& NGX_CONF_FLAG != 0) = true := by
    decide
  unfold argOk
  simp only [List.length_singleton, List.headD_cons, d1, d3, d4, d5, d6]
  simp

/-- The single bitmask entry of `accept_mutex`, checked against terminator
`;` and one argument, accepts exactly a valid flag and otherwise reports the
flag message. -/
theorem maskFail_accept_mutex (a : String) :
    maskFail (NGX_EVENT_CONF ||| NGX_CONF_FLAG) ";" [a] "accept_mutex" =
      if validFlag a then none
      else some ("invalid value \"" ++ a ++
        "\" in \"accept_mutex\" directive, it must be \"on\" or \"off\"") := by
  have c1 : ((NGX_EVENT_CONF ||| NGX_CONF_FLAG) &&& NGX_CONF_BLOCK != 0 &&
      (";" : String) != "\x7b") = false := by decide
  have c2 : ((NGX_EVENT_CONF ||| NGX_CONF_FLAG) &&& NGX_CONF_BLOCK == 0 &&
      (";" : String) != ";") = false := by decide
  have c3 : ((NGX_EVENT_CONF ||| NGX_CONF_FLAG) &&& NGX_CONF_FLAG != 0) = true := by
    decide
  unfold maskFail
  simp only [c1, c2, c3, argOk_accept_mutex, List.length_singleton,
    List.headD_cons, Bool.false_eq_true, if_false]
  by_cases hv : validFlag a = true
  · simp [hv]
  · simp only [Bool.not_eq_true] at hv
    simp [hv]
    apply String.ext
    simp [String.data_append]

/-- The mask loop over a single entry accepts when the entry passes
`maskFail` and otherwise raises the entry's reason as an ArgumentsError. -/
theorem runMasks_singleton (d fname : String) (line : Nat) (term : String)
    (args : List String) (m : Nat) (r : Option String) :
    runMasks d fname line term args [m] r =
      match maskFail m term args d with
      | none => Except.ok ()
      | some why => Except.error (mkExc .argsErr why fname line) := by
  cases h : maskFail m term args d <;> simp [runMasks, h]

/-! ## Claim theorems -/

/-- C1: every statement — any directive name and any argument list —
analyzed with terminator `;` in one of the freeform contexts
`("http","map")`, `("http","types")`, `("http","geo")`,
`("http","charset_map")` is accepted unconditionally, whatever the strict
and check flags. -/
theorem freeform_bypass (fname d : String) (args : List String) (line : Nat)
    (ctx : List String) (strict check_ctx check_args : Bool)
    (h : ctx = ["http", "map"] ∨ ctx = ["http", "types"] ∨
      ctx = ["http", "geo"] ∨ ctx = ["http", "charset_map"]) :
    analyze fname ⟨d, args, line⟩ ";" ctx strict check_ctx check_args =
      Except.ok () := by
  have hm : ctx ∈ FREEFORM_CONTEXTS := by
    rcases h with rfl | rfl | rfl | rfl <;> decide
  simp [analyze, hm]

/-- Witness for C1: the map entry `~^/news 1;` passes analysis in
`("http","map")` even in strict mode. -/
theorem freeform_bypass_witness :
    analyze "/path/to/nginx.conf" ⟨"~^/news", ["1"], 2⟩ ";" ["http", "map"]
      true true true = Except.ok () :=
  freeform_bypass "/path/to/nginx.conf" "~^/news" ["1"] 2 ["http", "map"]
    true true true (Or.inl rfl)

/-- C2: for a directive known to `DIRECTIVES` analyzed with `check_ctx` in a
registered, non-freeform context, analysis raises ContextError
`"X" directive is not allowed here` when no entry of the directive matches
the context, and never raises a ContextError when some entry matches; in
particular `listen 80;` passes in `("http","server")`, raises ContextError
in `("http",)`, and passes in `("http",)` once `check_ctx` is off. -/
theorem context_enforcement (fname term : String) (stmt : Stmt)
    (ctx : List String) (strict check_args : Bool) (masks : List Nat)
    (cmask : Nat)
    (hd : DIRECTIVES.lookup stmt.directive = some masks)
    (hc : CONTEXTS.lookup ctx = some cmask)
    (hf : ctx ∉ FREEFORM_CONTEXTS) :
    ((∀ m ∈ masks, m &&& cmask = 0) →
      analyze fname stmt term ctx strict true check_args =
        Except.error (mkExc .ctxErr
          ("\"" ++ stmt.directive ++ "\" directive is not allowed here")
          fname stmt.line)) ∧
    ((∃ m ∈ masks, m &&& cmask ≠ 0) →
      ∀ e, analyze fname stmt term ctx strict true check_args =
        Except.error e → e.kind ≠ ExcKind.ctxErr) ∧
    analyze fname ⟨"listen", ["80"], 1⟩ ";" ["http", "server"] = Except.ok () ∧
    analyze fname ⟨"listen", ["80"], 1⟩ ";" ["http"] =
      Except.error (mkExc .ctxErr "\"listen\" directive is not allowed here"
        fname 1) ∧
    analyze fname ⟨"listen", ["80"], 1⟩ ";" ["http"] false false true =
      Except.ok () := by
  refine ⟨?_, ?_, rfl, rfl, rfl⟩
  · exact fun hall => analyze_ctx_mismatch fname term stmt ctx strict
      check_args masks cmask hd hc hf hall
  · intro hex e he hk
    have hfb : FREEFORM_CONTEXTS.contains ctx = false := by simpa using hf
    have hie : (masks.filter (fun m => m &&& cmask != 0)).isEmpty = false := by
      obtain ⟨m, hm, hmne⟩ := hex
      rw [List.isEmpty_eq_false]
      intro hnil
      rw [List.filter_eq_nil_iff] at hnil
      exact (hnil m hm) (by simpa using hmne)
    have hkind := analyze_known_error_args fname term stmt ctx strict
      check_args masks cmask hd hc hfb hie e he
    rw [hk] at hkind
    cases hkind

/-- Witness for C2: `listen 80;` in `("http",)` raises the ContextError,
via the mismatch branch at the concrete `listen` entry list. -/
theorem context_enforcement_witness :
    analyze "/path/to/nginx.conf" ⟨"listen", ["80"], 1⟩ ";" ["http"] =
      Except.error (mkExc .ctxErr "\"listen\" directive is not allowed here"
        "/path/to/nginx.conf" 1) :=
  (context_enforcement "/path/to/nginx.conf" ";" ⟨"listen", ["80"], 1⟩
    ["http"] false true
    [NGX_HTTP_SRV_CONF ||| NGX_CONF_1MORE,
     NGX_MAIL_SRV_CONF ||| NGX_CONF_1MORE,
     NGX_STREAM_SRV_CONF ||| NGX_CONF_1MORE]
    NGX_HTTP_MAIN_CONF rfl rfl (by decide)).1 (by decide)

/-- C3: `enter_block_ctx` depends only on the directive and the context;
every non-location block directive extends the context by its name
(`server` from `("http",)` gives `("http","server")`, `http` from `()`
gives `("http",)`), while a `location` block entered from
`("http","server")` or `("http","location")` yields exactly the fixed
two-element context `("http","location")`. -/
theorem enter_block_ctx_spec :
    (∀ (stmt : Stmt) (ctx : List String), stmt.directive ≠ "location" →
      enter_block_ctx stmt ctx = ctx ++ [stmt.directive]) ∧
    (∀ (s1 s2 : Stmt) (ctx : List String), s1.directive = s2.directive →
      enter_block_ctx s1 ctx = enter_block_ctx s2 ctx) ∧
    enter_block_ctx ⟨"server", [], 1⟩ ["http"] = ["http", "server"] ∧
    enter_block_ctx ⟨"http", [], 1⟩ [] = ["http"] ∧
    enter_block_ctx ⟨"location", ["/"], 1⟩ ["http", "server"] = ["http", "location"] ∧
    enter_block_ctx ⟨"location", ["/api"], 1⟩ ["http", "location"] =
      ["http", "location"] := by
  refine ⟨?_, ?_, rfl, rfl, rfl, rfl⟩
  · intro stmt ctx h
    simp [enter_block_ctx, h]
  · intro s1 s2 ctx h
    simp [enter_block_ctx, h]

/-- Witness for C3: entering a `server` block from `("http",)` extends the
context. -/
theorem enter_block_ctx_spec_witness :
    enter_block_ctx ⟨"server", [], 1⟩ ["http"] = ["http", "server"] :=
  enter_block_ctx_spec.1 ⟨"server", [], 1⟩ ["http"] (by decide)

/-- C4: for the flag directive `accept_mutex` in `("events",)` with
terminator `;`, a single argument passes exactly when it case-insensitively
equals `on` or `off` (so `on`, `off`, `On`, `Off`, `ON`, `OFF` pass), and
otherwise (so for `1`, `0`, `true`, `okay`, the empty string) analysis
raises ArgumentsError whose message ends with `it must be "on" or "off"`. -/
theorem flag_directive_args (fname : String) (line : Nat) (a : String)
    (strict : Bool) :
    (validFlag a = true →
      analyze fname ⟨"accept_mutex", [a], line⟩ ";" ["events"] strict =
        Except.ok ()) ∧
    (validFlag a = false →
      analyze fname ⟨"accept_mutex", [a], line⟩ ";" ["events"] strict =
        Except.error (mkExc .argsErr
          ("invalid value \"" ++ a ++
            "\" in \"accept_mutex\" directive, it must be \"on\" or \"off\"")
          fname line)) ∧
    validFlag "on" = true ∧ validFlag "off" = true ∧ validFlag "On" = true ∧
    validFlag "Off" = true ∧ validFlag "ON" = true ∧ validFlag "OFF" = true ∧
    validFlag "1" = false ∧ validFlag "0" = false ∧ validFlag "true" = false ∧
    validFlag "okay" = false ∧ validFlag "" = false := by
  have hfil : ([NGX_EVENT_CONF ||| NGX_CONF_FLAG].filter
      (fun m => m &&& NGX_EVENT_CONF != 0)) =
      [NGX_EVENT_CONF ||| NGX_CONF_FLAG] := rfl
  have hred : analyze fname ⟨"accept_mutex", [a], line⟩ ";" ["events"] strict =
      runMasks "accept_mutex" fname line ";" [a]
        [NGX_EVENT_CONF ||| NGX_CONF_FLAG] none := by
    rw [analyze_reduce fname ";" ⟨"accept_mutex", [a], line⟩ ["events"] strict
      true [NGX_EVENT_CONF ||| NGX_CONF_FLAG] NGX_EVENT_CONF rfl rfl rfl
      (by rw [hfil]; rfl)]
    rw [hfil]
    rw [if_pos rfl, List.reverse_singleton]
  refine ⟨?_, ?_, rfl, rfl, rfl, rfl, rfl, rfl, rfl, rfl, rfl, rfl, rfl⟩
  · intro hv
    rw [hred, runMasks_singleton, maskFail_accept_mutex a, hv, if_pos rfl]
  · intro hv
    rw [hred, runMasks_singleton, maskFail_accept_mutex a, hv,
      if_neg (by simp)]

/-- Witness for C4: `accept_mutex On;` passes in `("events",)` and
`accept_mutex okay;` raises the flag ArgumentsError. -/
theorem flag_directive_args_witness :
    analyze "/path/to/nginx.conf" ⟨"accept_mutex", ["On"], 2⟩ ";" ["events"]
        false = Except.ok () ∧
    analyze "/path/to/nginx.conf" ⟨"accept_mutex", ["okay"], 2⟩ ";" ["events"]
        false = Except.error (mkExc .argsErr
        ("invalid value \"okay\" in \"accept_mutex\" directive, it must be \"on\" or \"off\"")
        "/path/to/nginx.conf" 2) :=
  ⟨(flag_directive_args "/path/to/nginx.conf" 2 "On" false).1 rfl,
   (flag_directive_args "/path/to/nginx.conf" 2 "okay" false).2.1 rfl⟩

/-- C5: block shape is enforced against the terminator: `http` (a block
directive) with `;` raises ArgumentsError `has no opening "\x7b"` and passes
with `\x7b`; `listen` (a non-block directive) with `\x7b` raises
ArgumentsError `is not terminated by ";"`. -/
theorem block_shape (fname : String) :
    analyze fname ⟨"http", [], 1⟩ ";" [] =
      Except.error (mkExc .argsErr
        "directive \"http\" has no opening \"\x7b\"" fname 1) ∧
    analyze fname ⟨"http", [], 1⟩ "\x7b" [] = Except.ok () ∧
    analyze fname ⟨"listen", ["80"], 1⟩ "\x7b" ["http", "server"] =
      Except.error (mkExc .argsErr
        "directive \"listen\" is not terminated by \";\"" fname 1) :=
  ⟨rfl, rfl, rfl⟩

/-- C6: a directive absent from `DIRECTIVES`, analyzed in a registered
non-freeform context, raises UnknownDirectiveError `unknown directive "X"`
in strict mode and is accepted silently otherwise. -/
theorem unknown_directive_strictness (fname term d : String)
    (args : List String) (line : Nat) (ctx : List String)
    (check_ctx check_args : Bool)
    (hd : DIRECTIVES.lookup d = none)
    (hknown : ∃ cmask, CONTEXTS.lookup ctx = some cmask)
    (hf : ctx ∉ FREEFORM_CONTEXTS) :
    analyze fname ⟨d, args, line⟩ term ctx true check_ctx check_args =
      Except.error (mkExc .unknownErr ("unknown directive \"" ++ d ++ "\"")
        fname line) ∧
    analyze fname ⟨d, args, line⟩ term ctx false check_ctx check_args =
      Except.ok () := by
  obtain ⟨cmask, hc⟩ := hknown
  constructor
  · simp [analyze, hf, hd]
  · simp [analyze, hf, hd, hc]

/-- Witness for C6: `completely_unknown_directive` in `("http",)` raises in
strict mode and passes in non-strict mode. -/
theorem unknown_directive_strictness_witness :
    analyze "/path/to/nginx.conf" ⟨"completely_unknown_directive", [], 1⟩ ";"
        ["http"] true true true =
      Except.error (mkExc .unknownErr
        "unknown directive \"completely_unknown_directive\""
        "/path/to/nginx.conf" 1) ∧
    analyze "/path/to/nginx.conf" ⟨"completely_unknown_directive", [], 1⟩ ";"
        ["http"] false true true = Except.ok () := by
  have h := unknown_directive_strictness "/path/to/nginx.conf" ";"
    "completely_unknown_directive" [] 1 ["http"] true true rfl
    ⟨NGX_HTTP_MAIN_CONF, rfl⟩ (by decide)
  exact ⟨by rw [h.1]; rfl, h.2⟩

/-- C7: with `check_args` enabled, a `;`-terminated statement of a known
directive in a registered non-freeform context (whose matching entries are
all non-block) passes exactly when some matching entry's argument rule fits
the argument count, and otherwise raises ArgumentsError; concretely:
zero-args `break` in `("http","server","if")` accepts `[]` and rejects one
argument, `server_name` in `("http","server")` accepts one argument and
rejects `[]`, one-or-more `index` in `("http",)` accepts one or three
arguments and rejects `[]`, and with `check_args` off the same out-of-count
statements raise nothing. -/
theorem argument_count_validation (fname : String) (stmt : Stmt)
    (ctx : List String) (strict : Bool) (masks : List Nat) (cmask : Nat)
    (hd : DIRECTIVES.lookup stmt.directive = some masks)
    (hc : CONTEXTS.lookup ctx = some cmask)
    (hf : ctx ∉ FREEFORM_CONTEXTS)
    (hne : masks.filter (fun m => m &&& cmask != 0) ≠ [])
    (hnb : ∀ m ∈ masks.filter (fun m => m &&& cmask != 0),
      m &&& NGX_CONF_BLOCK = 0) :
    (analyze fname stmt ";" ctx strict true true = Except.ok () ↔
      ∃ m ∈ masks.filter (fun m => m &&& cmask != 0),
        argOk m stmt.args = true) ∧
    ((∀ m ∈ masks.filter (fun m => m &&& cmask != 0),
        argOk m stmt.args = false) →
      ∃ e, analyze fname stmt ";" ctx strict true true = Except.error e ∧
        e.kind = ExcKind.argsErr) ∧
    analyze fname ⟨"break", [], 1⟩ ";" ["http", "server", "if"] =
      Except.ok () ∧
    analyze fname ⟨"break", ["unexpected"], 1⟩ ";" ["http", "server", "if"] =
      Except.error (mkExc .argsErr
        "invalid number of arguments in \"break\" directive" fname 1) ∧
    analyze fname ⟨"server_name", ["example.com"], 1⟩ ";" ["http", "server"] =
      Except.ok () ∧
    analyze fname ⟨"server_name", [], 1⟩ ";" ["http", "server"] =
      Except.error (mkExc .argsErr
        "invalid number of arguments in \"server_name\" directive" fname 1) ∧
    analyze fname ⟨"index", ["index.html"], 1⟩ ";" ["http"] = Except.ok () ∧
    analyze fname ⟨"index", ["index.html", "index.htm", "default.html"], 1⟩
      ";" ["http"] = Except.ok () ∧
    analyze fname ⟨"index", [], 1⟩ ";" ["http"] =
      Except.error (mkExc .argsErr
        "invalid number of arguments in \"index\" directive" fname 1) ∧
    analyze fname ⟨"break", ["unexpected"], 1⟩ ";" ["http", "server", "if"]
      false true false = Except.ok () ∧
    analyze fname ⟨"server_name", [], 1⟩ ";" ["http", "server"]
      false true false = Except.ok () ∧
    analyze fname ⟨"index", [], 1⟩ ";" ["http"] false true false =
      Except.ok () ∧
    analyze fname ⟨"listen", [], 1⟩ ";" ["http", "server"] false true false =
      Except.ok () := by
  have hfb : FREEFORM_CONTEXTS.contains ctx = false := by simpa using hf
  have hie : (masks.filter (fun m => m &&& cmask != 0)).isEmpty = false := by
    rw [List.isEmpty_eq_false]
    exact hne
  refine ⟨analyze_noBlock_ok_iff fname stmt ctx strict masks cmask
    hd hc hfb hie hnb, ?_, rfl, rfl, rfl, rfl, rfl, rfl, rfl, rfl, rfl, rfl,
    rfl⟩
  intro hall
  cases h : analyze fname stmt ";" ctx strict true true with
  | ok u =>
      cases u
      obtain ⟨m, hm, hA⟩ := (analyze_noBlock_ok_iff fname stmt ctx strict
        masks cmask hd hc hfb hie hnb).mp h
      rw [hall m hm] at hA
      cases hA
  | error e =>
      exact ⟨e, rfl, analyze_known_error_args fname ";" stmt ctx strict true
        masks cmask hd hc hfb hie e h⟩

/-- Witness for C7: `break;` passes in `("http","server","if")`, through the
general hypotheses instantiated at the concrete `break` entry. -/
theorem argument_count_validation_witness :
    analyze "/path/to/nginx.conf" ⟨"break", [], 1⟩ ";"
      ["http", "server", "if"] = Except.ok () :=
  (argument_count_validation "/path/to/nginx.conf" ⟨"break", [], 1⟩
    ["http", "server", "if"] false
    [NGX_HTTP_SRV_CONF ||| NGX_HTTP_SIF_CONF ||| NGX_HTTP_LOC_CONF |||
      NGX_HTTP_LIF_CONF ||| NGX_CONF_NOARGS]
    NGX_HTTP_SIF_CONF rfl rfl (by decide) (by decide) (by decide)).2.2.1

/-- A TAKE1 entry that is non-block accepts a one-argument statement
terminated by `;`. -/
theorem maskFail_take1 (m : Nat) (arg d : String)
    (h1 : (m &&& NGX_CONF_BLOCK == 0) = true)
    (h2 : (((m >>> 1) &&& 1) == 1) = true) :
    maskFail m ";" [arg] d = none := by
  have hA : argOk m [arg] = true := by
    unfold argOk
    simp only [List.length_singleton, h2]
    simp
  have h1' : m &&& NGX_CONF_BLOCK = 0 := by simpa using h1
  unfold maskFail
  simp [hA, h1']

/-- When the context filter of a known directive leaves exactly one entry
and that entry accepts the statement, the full analysis accepts. -/
theorem analyze_singleton_ok (fname : String) (stmt : Stmt) (ctx : List String)
    (strict : Bool) (masks : List Nat) (cmask mval : Nat)
    (hd : DIRECTIVES.lookup stmt.directive = some masks)
    (hc : CONTEXTS.lookup ctx = some cmask)
    (hfb : FREEFORM_CONTEXTS.contains ctx = false)
    (hfil : masks.filter (fun m => m &&& cmask != 0) = [mval])
    (hok : maskFail mval ";" stmt.args stmt.directive = none) :
    analyze fname stmt ";" ctx strict true true = Except.ok () := by
  rw [analyze_reduce fname ";" stmt ctx strict true masks cmask hd hc hfb
    (by rw [hfil]; rfl)]
  rw [hfil, if_pos rfl, List.reverse_singleton, runMasks_singleton, hok]

/-- C8: the pseudo-directive `state` with one argument and terminator `;`
is accepted exactly in `("http","upstream")`, `("stream","upstream")`, and
any context absent from the `CONTEXTS` registry (such as
`("some_third_party_context",)`); every other registry context raises
ContextError. -/
theorem state_directive_contexts (fname : String) (line : Nat) (arg : String) :
    analyze fname ⟨"state", [arg], line⟩ ";" ["http", "upstream"] =
      Except.ok () ∧
    analyze fname ⟨"state", [arg], line⟩ ";" ["stream", "upstream"] =
      Except.ok () ∧
    analyze fname ⟨"state", [arg], line⟩ ";" ["some_third_party_context"] =
      Except.ok () ∧
    (∀ ctx, CONTEXTS.lookup ctx = none →
      analyze fname ⟨"state", [arg], line⟩ ";" ctx = Except.ok ()) ∧
    (∀ ctx cmask, (ctx, cmask) ∈ CONTEXTS → ctx ≠ ["http", "upstream"] →
      ctx ≠ ["stream", "upstream"] →
      analyze fname ⟨"state", [arg], line⟩ ";" ctx =
        Except.error (mkExc .ctxErr "\"state\" directive is not allowed here"
          fname line)) := by
  refine ⟨?_, ?_, rfl, ?_, ?_⟩
  · exact analyze_singleton_ok fname ⟨"state", [arg], line⟩
      ["http", "upstream"] false _ NGX_HTTP_UPS_CONF
      (NGX_HTTP_UPS_CONF ||| NGX_CONF_TAKE1) rfl rfl rfl rfl
      (maskFail_take1 _ _ _ (by decide) (by decide))
  · exact analyze_singleton_ok fname ⟨"state", [arg], line⟩
      ["stream", "upstream"] false _ NGX_STREAM_UPS_CONF
      (NGX_STREAM_UPS_CONF ||| NGX_CONF_TAKE1) rfl rfl rfl rfl
      (maskFail_take1 _ _ _ (by decide) (by decide))
  · intro ctx hl
    by_cases hm : ctx ∈ FREEFORM_CONTEXTS
    · simp [analyze, hm]
    · simp [analyze, hm, hl]
  · intro ctx cmask hmem h1 h2
    simp only [CONTEXTS, List.mem_cons, List.not_mem_nil, or_false,
      Prod.mk.injEq] at hmem
    iterate 13
      rcases hmem with ⟨rfl, rfl⟩ | hmem
      rotate_left
    obtain ⟨rfl, rfl⟩ := hmem
    all_goals first | rfl | (exact absurd rfl h1) | (exact absurd rfl h2)

/-- Witness for C8: `state` raises ContextError in the registry context
`("http",)`. -/
theorem state_directive_contexts_witness :
    analyze "/path/to/nginx.conf" ⟨"state", ["/path/to/state/file.conf"], 5⟩
        ";" ["http"] =
      Except.error (mkExc .ctxErr "\"state\" directive is not allowed here"
        "/path/to/nginx.conf" 5) :=
  (state_directive_contexts "/path/to/nginx.conf" 5
    "/path/to/state/file.conf").2.2.2.2 ["http"] NGX_HTTP_MAIN_CONF
    (by decide) (by decide) (by decide)

/-- C9: a base error with a line number renders as
`"{strerror} in {filename}:{lineno}"` — for every kind in the hierarchy,
since all specializations carry the same three fields — and in particular
`strerror="x"`, `filename="f"`, `lineno=42` renders exactly `"x in f:42"`. -/
theorem error_render_format (k : ExcKind) (s f : String) (n : Nat) :
    NgxException.render ⟨k, s, f, some n⟩ =
      Except.ok (s ++ " in " ++ f ++ ":" ++ toString n) ∧
    NgxException.render ⟨ExcKind.baseExc, "x", "f", some 42⟩ =
      Except.ok "x in f:42" := by
  constructor
  · exact pyFormatS_three s f (toString n)
  · rfl

/-- C10: rendering a base error whose `lineno` is `None` raises a TypeError:
the stored 3-tuple of arguments does not fit the two-placeholder format
string selected for the `None` case, for every kind in the hierarchy. -/
theorem error_render_none_lineno (k : ExcKind) (s f : String) :
    NgxException.render ⟨k, s, f, none⟩ = Except.error PyFmtError.typeError ∧
    NgxException.render
        ⟨ExcKind.baseExc, "file not found", "/etc/nginx/nginx.conf", none⟩ =
      Except.error PyFmtError.typeError :=
  ⟨pyFormatS_two_of_three s f "None",
   pyFormatS_two_of_three "file not found" "/etc/nginx/nginx.conf" "None"⟩

end Crossplane
